import Mathlib

/-!
Verification of the geofence attendance service (app.py).

The server-side logic is a pure haversine distance
computation plus a request handler that compares the distance against a
fixed radius.  The embedding below follows app.py line by line:
`radians`, `hav_a` and `haversine` are lines 12-18; `OFFICE_LAT`,
`OFFICE_LON` and `GEOFENCE_RADIUS_METERS` are lines 7-9; `check_access`
is the decision of lines 194-200; `check_access_raw` adds the request
boundary of lines 190-192 (`float(data.get(...))`), with `none`
modelling an uncaught Python exception.
-/

namespace GpsAttendance

open Real

/-- Two-argument arctangent, modelling Python's math.atan2 (the C library
atan2) on real arguments, ignoring signed zeros and non-finite values. -/
noncomputable def atan2 (y x : ℝ) : ℝ :=
  if 0 < x then Real.arctan (y / x)
  else if x < 0 ∧ 0 ≤ y then Real.arctan (y / x) + π
  else if x < 0 ∧ y < 0 then Real.arctan (y / x) - π
  else if x = 0 ∧ 0 < y then π / 2
  else if x = 0 ∧ y < 0 then -(π / 2)
  else 0

/-- math.radians: degree-to-radian conversion used on app.py lines 14-16. -/
noncomputable def radians (x : ℝ) : ℝ := x * π / 180

/-- Office latitude, app.py line 7. -/
noncomputable def OFFICE_LAT : ℝ := 17.437391

/-- Office longitude, app.py line 8. -/
noncomputable def OFFICE_LON : ℝ := 78.374825

/-- Geofence radius in meters, app.py line 9. -/
noncomputable def GEOFENCE_RADIUS_METERS : ℝ := 100

/-- The intermediate value `a` of app.py line 17:
`a = sin(dphi/2)**2 + cos(phi1)*cos(phi2)*sin(dlambda/2)**2` with
`phi1 = radians(lat1)`, `phi2 = radians(lat2)`, `dphi = radians(lat2-lat1)`,
`dlambda = radians(lon2-lon1)`. -/
noncomputable def hav_a (lat1 lon1 lat2 lon2 : ℝ) : ℝ :=
  Real.sin (radians (lat2 - lat1) / 2) ^ 2 +
    Real.cos (radians lat1) * Real.cos (radians lat2) *
      Real.sin (radians (lon2 - lon1) / 2) ^ 2

/-- haversine, app.py lines 12-18: returns
`2 * R * atan2(sqrt(a), sqrt(1 - a))` with `R = 6371000`. -/
noncomputable def haversine (lat1 lon1 lat2 lon2 : ℝ) : ℝ :=
  2 * 6371000 *
    atan2 (Real.sqrt (hav_a lat1 lon1 lat2 lon2))
      (Real.sqrt (1 - hav_a lat1 lon1 lat2 lon2))

/-- The JSON object returned by check_access, app.py lines 198 and 200:
exactly the three fields allowed, message and distance. -/
structure AccessResponse where
  allowed : Bool
  message : String
  distance : ℝ

/-- The decision of check_access on already-coerced numeric coordinates,
app.py lines 194-200. -/
noncomputable def check_access (user_lat user_lon : ℝ) : AccessResponse :=
  let distance := haversine user_lat user_lon OFFICE_LAT OFFICE_LON
  if distance > GEOFENCE_RADIUS_METERS then
    ⟨true, "✅ Outside office - Clock In/Out enabled", distance⟩
  else
    ⟨false, "🚫 Inside office - Clock In/Out disabled", distance⟩

/-- A JSON value as far as the handler inspects it: a number, a string, or
null (also standing for any other non-coercible value). -/
inductive Json where
  | num (x : ℝ)
  | str (s : String)
  | null

/-- The request body: `data.get("latitude")` / `data.get("longitude")`
yield `none` when the key is missing. -/
structure CheckRequest where
  latitude : Option Json
  longitude : Option Json

/-- Splits a character list at the first dot: returns the part before it
and, when a dot is present, the part after it. -/
def splitDot : List Char → List Char × Option (List Char)
  | [] => ([], none)
  | c :: rest =>
    if c = '.' then ([], some rest)
    else
      let p := splitDot rest
      (c :: p.1, p.2)

/-- Reads a digit string as a natural number; none on any non-digit. The
empty list gives 0 and is ruled out by the caller. -/
def digitsToNat (l : List Char) : Option Nat :=
  l.foldl
    (fun acc c =>
      acc.bind (fun n => if c.isDigit then some (10 * n + (c.toNat - 48)) else none))
    (some 0)

/-- Python float() applied to a string, modelled for plain decimal
literals: optional sign, digits, at most one dot, at least one digit.
The result is the signed decimal mantissa together with the number of
fraction digits, so the parsed value is mantissa / 10 ^ digits.
none models a ValueError on a non-numeric string.  Exponent forms,
infinities and surrounding whitespace, which the program's inputs do not
exercise, are outside the model and also map to none. -/
def parseFloat (s : String) : Option (ℤ × ℕ) :=
  let l := s.data
  let sl : ℤ × List Char :=
    match l with
    | '-' :: rest => (-1, rest)
    | '+' :: rest => (1, rest)
    | _ => (1, l)
  let p := splitDot sl.2
  match p.2 with
  | none =>
    if p.1.isEmpty then none
    else (digitsToNat p.1).map (fun n => (sl.1 * (n : ℤ), 0))
  | some fp =>
    if p.1.isEmpty && fp.isEmpty then none
    else
      (digitsToNat p.1).bind (fun n =>
        (digitsToNat fp).map (fun f =>
          (sl.1 * ((n : ℤ) * 10 ^ fp.length + (f : ℤ)), fp.length)))

/-- Python float() on a JSON value: numbers pass through, numeric strings
are parsed, everything else raises (none). -/
noncomputable def pyFloat : Json → Option ℝ
  | Json.num x => some x
  | Json.str s => (parseFloat s).map (fun mk => (mk.1 : ℝ) / 10 ^ mk.2)
  | Json.null => none

/-- float(data.get(key)): float(None) raises a TypeError, so a missing key
is none as well. -/
noncomputable def pyFloatOpt : Option Json → Option ℝ
  | none => none
  | some j => pyFloat j

/-- check_access at the request boundary, app.py lines 188-200:
`float(data.get("latitude"))`, `float(data.get("longitude"))`, then the
decision.  none models the handler raising an uncaught exception (which
Flask turns into a 500 response, not a validation reply). -/
noncomputable def check_access_raw (r : CheckRequest) : Option AccessResponse :=
  (pyFloatOpt r.latitude).bind (fun la =>
    (pyFloatOpt r.longitude).map (fun lo => check_access la lo))

/-! Helper lemmas shared by the claim theorems. -/

lemma hav_a_self (lat lon : ℝ) : hav_a lat lon lat lon = 0 := by
  simp [hav_a, radians]

lemma haversine_self (lat lon : ℝ) : haversine lat lon lat lon = 0 := by
  simp [haversine, hav_a_self, atan2, Real.sqrt_one]

lemma hav_a_symm (lat1 lon1 lat2 lon2 : ℝ) :
    hav_a lat1 lon1 lat2 lon2 = hav_a lat2 lon2 lat1 lon1 := by
  unfold hav_a radians
  have h1 : (lat1 - lat2) * π / 180 / 2 = -((lat2 - lat1) * π / 180 / 2) := by ring
  have h2 : (lon1 - lon2) * π / 180 / 2 = -((lon2 - lon1) * π / 180 / 2) := by ring
  rw [h2, Real.sin_neg, neg_sq]
  rw [show (lat2 - lat1) * π / 180 / 2 = -((lat1 - lat2) * π / 180 / 2) by ring,
    Real.sin_neg, neg_sq]
  ring

/-! Claim theorems. -/

/-- C1: for every reported coordinate, the decision returned by
check_access has allowed = true exactly when the haversine distance from
the office is strictly greater than the 100-meter radius; in particular a
distance equal to the radius gives allowed = false. -/
theorem claim_C1 (lat lon : ℝ) :
    (check_access lat lon).allowed = true ↔
      haversine lat lon OFFICE_LAT OFFICE_LON > GEOFENCE_RADIUS_METERS := by
  by_cases h : haversine lat lon OFFICE_LAT OFFICE_LON > GEOFENCE_RADIUS_METERS <;>
    simp [check_access, h]

/-- C4: a reported coordinate equal to the office coordinate gives
distance 0, and for the configured office the decision is
allowed = false with distance 0 in the response. -/
theorem claim_C4 :
    (∀ lat lon : ℝ, haversine lat lon lat lon = 0) ∧
      (check_access OFFICE_LAT OFFICE_LON).allowed = false ∧
      (check_access OFFICE_LAT OFFICE_LON).distance = 0 := by
  refine ⟨haversine_self, ?_, ?_⟩ <;>
    · simp [check_access, haversine_self, GEOFENCE_RADIUS_METERS]
      norm_num

/-- C5: the haversine distance is symmetric in its two coordinate pairs. -/
theorem claim_C5 (lat1 lon1 lat2 lon2 : ℝ) :
    haversine lat1 lon1 lat2 lon2 = haversine lat2 lon2 lat1 lon1 := by
  unfold haversine
  rw [hav_a_symm]

/-- C7: the check_access response carries exactly allowed, message and
distance; the enabled message appears exactly when allowed is true, the
disabled message exactly when allowed is false, and distance is the
computed haversine distance. -/
theorem claim_C7 (lat lon : ℝ) :
    ((check_access lat lon).message = "✅ Outside office - Clock In/Out enabled" ↔
        (check_access lat lon).allowed = true) ∧
      ((check_access lat lon).message = "🚫 Inside office - Clock In/Out disabled" ↔
        (check_access lat lon).allowed = false) ∧
      (check_access lat lon).distance = haversine lat lon OFFICE_LAT OFFICE_LON := by
  have hne : ("✅ Outside office - Clock In/Out enabled" : String) ≠
      "🚫 Inside office - Clock In/Out disabled" := by decide
  by_cases h : haversine lat lon OFFICE_LAT OFFICE_LON > GEOFENCE_RADIUS_METERS <;>
    simp [check_access, h, hne, hne.symm]

/-- The haversine algorithm exactly as the spec words it (section 4.1):
convert to radians first, take the differences of the converted values,
form a, and return 2 * R * atan2(sqrt a, sqrt (1 - a)) with R = 6371000. -/
noncomputable def haversine_spec (lat1 lon1 lat2 lon2 : ℝ) : ℝ :=
  2 * 6371000 *
    atan2
      (Real.sqrt (Real.sin ((radians lat2 - radians lat1) / 2) ^ 2 +
        Real.cos (radians lat1) * Real.cos (radians lat2) *
          Real.sin ((radians lon2 - radians lon1) / 2) ^ 2))
      (Real.sqrt (1 - (Real.sin ((radians lat2 - radians lat1) / 2) ^ 2 +
        Real.cos (radians lat1) * Real.cos (radians lat2) *
          Real.sin ((radians lon2 - radians lon1) / 2) ^ 2)))

lemma radians_sub (a b : ℝ) : radians (a - b) = radians a - radians b := by
  unfold radians; ring

/-- C2: the code's haversine agrees with the spec's reference algorithm at
every pair of inputs (the code converts the coordinate differences to
radians, the spec takes differences of the converted coordinates; the two
coincide since the conversion is linear). -/
theorem claim_C2 (lat1 lon1 lat2 lon2 : ℝ) :
    haversine lat1 lon1 lat2 lon2 = haversine_spec lat1 lon1 lat2 lon2 := by
  unfold haversine haversine_spec hav_a
  rw [radians_sub, radians_sub]

/-- C3: at the failing inputs (latitude missing, or latitude the
non-numeric string "abc") the handler does not return a validation reply:
it raises an uncaught exception (modelled as none), which Flask turns into
a 500 server error.  This contradicts the claim and the spec's stated
requirement; the spec itself calls the crash the original, unacceptable
behavior, so the code is at fault. -/
theorem claim_C3 :
    check_access_raw ⟨none, some (Json.num 78.374825)⟩ = none ∧
      check_access_raw ⟨some (Json.str "abc"), some (Json.num 78.374825)⟩ = none := by
  exact ⟨rfl, rfl⟩

/-- C10: a numeric-string latitude is coerced by float() and yields the
same response as the corresponding numeric latitude (a mantissa m with k
fraction digits denotes the value m / 10 ^ k). -/
theorem claim_C10 (s : String) (m : ℤ) (k : ℕ) (lon : ℝ)
    (h : parseFloat s = some (m, k)) :
    check_access_raw ⟨some (Json.str s), some (Json.num lon)⟩ =
      check_access_raw ⟨some (Json.num ((m : ℝ) / 10 ^ k)), some (Json.num lon)⟩ := by
  simp [check_access_raw, pyFloatOpt, pyFloat, h]

/-- C10 witness: the string "17.437391" parses to mantissa 17437391 with 6
fraction digits, and the boundary gives it the same response as the
numeric value 17437391 / 10 ^ 6. -/
theorem claim_C10_witness :
    parseFloat "17.437391" = some (17437391, 6) ∧
      check_access_raw ⟨some (Json.str "17.437391"), some (Json.num 78.374825)⟩ =
        check_access_raw
          ⟨some (Json.num ((17437391 : ℝ) / 10 ^ 6)), some (Json.num 78.374825)⟩ := by
  exact ⟨by decide, claim_C10 "17.437391" 17437391 6 78.374825 (by decide)⟩

/-! Analytic helper lemmas for the distance bounds. -/

lemma sin_sq_half_eq (x : ℝ) :
    Real.sin (x / 2) ^ 2 = (1 - Real.cos x) / 2 := by
  rw [Real.sin_sq, Real.cos_sq, show 2 * (x / 2) = x by ring]
  ring

lemma hav_a_eq (lat1 lon1 lat2 lon2 : ℝ) :
    hav_a lat1 lon1 lat2 lon2 =
      (1 - (Real.sin (radians lat1) * Real.sin (radians lat2) +
        Real.cos (radians lat1) * Real.cos (radians lat2) *
          Real.cos (radians (lon2 - lon1)))) / 2 := by
  unfold hav_a
  rw [radians_sub, sin_sq_half_eq, sin_sq_half_eq, Real.cos_sub]
  ring

lemma inner_prod_le_one (x y z : ℝ) :
    Real.sin x * Real.sin y + Real.cos x * Real.cos y * Real.cos z ≤ 1 := by
  nlinarith [Real.sin_sq_add_cos_sq x, Real.sin_sq_add_cos_sq y,
    sq_nonneg (Real.sin x - Real.sin y),
    mul_nonneg (sub_nonneg.2 (Real.cos_le_one z)) (sq_nonneg (Real.cos x + Real.cos y)),
    mul_nonneg (by linarith [Real.neg_one_le_cos z] : (0 : ℝ) ≤ 1 + Real.cos z)
      (sq_nonneg (Real.cos x - Real.cos y))]

lemma neg_one_le_inner_prod (x y z : ℝ) :
    -1 ≤ Real.sin x * Real.sin y + Real.cos x * Real.cos y * Real.cos z := by
  nlinarith [Real.sin_sq_add_cos_sq x, Real.sin_sq_add_cos_sq y,
    sq_nonneg (Real.sin x + Real.sin y),
    mul_nonneg (sub_nonneg.2 (Real.cos_le_one z)) (sq_nonneg (Real.cos x - Real.cos y)),
    mul_nonneg (by linarith [Real.neg_one_le_cos z] : (0 : ℝ) ≤ 1 + Real.cos z)
      (sq_nonneg (Real.cos x + Real.cos y))]

lemma hav_a_nonneg (lat1 lon1 lat2 lon2 : ℝ) : 0 ≤ hav_a lat1 lon1 lat2 lon2 := by
  rw [hav_a_eq]
  linarith [inner_prod_le_one (radians lat1) (radians lat2) (radians (lon2 - lon1))]

lemma hav_a_le_one (lat1 lon1 lat2 lon2 : ℝ) : hav_a lat1 lon1 lat2 lon2 ≤ 1 := by
  rw [hav_a_eq]
  linarith [neg_one_le_inner_prod (radians lat1) (radians lat2) (radians (lon2 - lon1))]

lemma arctan_nonneg_of {t : ℝ} (h : 0 ≤ t) : 0 ≤ Real.arctan t := by
  have hm := Real.arctan_strictMono.monotone h
  rwa [Real.arctan_zero] at hm

lemma atan2_nonneg {y x : ℝ} (hy : 0 ≤ y) (hx : 0 ≤ x) : 0 ≤ atan2 y x := by
  unfold atan2
  split_ifs with h1 h2 h3 h4 h5
  · exact arctan_nonneg_of (div_nonneg hy h1.le)
  · exact absurd h2.1 (not_lt.2 hx)
  · exact absurd h3.1 (not_lt.2 hx)
  · linarith [Real.pi_pos]
  · exact absurd h5.2 (not_lt.2 hy)
  · exact le_refl 0

lemma atan2_le_half_pi {y x : ℝ} (hy : 0 ≤ y) (hx : 0 ≤ x) : atan2 y x ≤ π / 2 := by
  unfold atan2
  split_ifs with h1 h2 h3 h4 h5
  · exact (Real.arctan_lt_pi_div_two _).le
  · exact absurd h2.1 (not_lt.2 hx)
  · exact absurd h3.1 (not_lt.2 hx)
  · exact le_refl _
  · exact absurd h5.2 (not_lt.2 hy)
  · linarith [Real.pi_pos]

lemma haversine_nonneg (lat1 lon1 lat2 lon2 : ℝ) :
    0 ≤ haversine lat1 lon1 lat2 lon2 := by
  unfold haversine
  have h := atan2_nonneg (Real.sqrt_nonneg (hav_a lat1 lon1 lat2 lon2))
    (Real.sqrt_nonneg (1 - hav_a lat1 lon1 lat2 lon2))
  linarith

/-- C6: the haversine distance is non-negative whenever both coordinates
are in range (latitude in [-90, 90], longitude in [-180, 180]); the
underlying lemma holds for all real inputs. -/
theorem claim_C6 (lat1 lon1 lat2 lon2 : ℝ)
    (_hlat1 : -90 ≤ lat1 ∧ lat1 ≤ 90) (_hlon1 : -180 ≤ lon1 ∧ lon1 ≤ 180)
    (_hlat2 : -90 ≤ lat2 ∧ lat2 ≤ 90) (_hlon2 : -180 ≤ lon2 ∧ lon2 ≤ 180) :
    0 ≤ haversine lat1 lon1 lat2 lon2 :=
  haversine_nonneg lat1 lon1 lat2 lon2

/-- C6 witness: the office coordinate is in range and its distance to the
opposite corner of the valid range is non-negative. -/
theorem claim_C6_witness :
    ((-90 : ℝ) ≤ 17.437391 ∧ (17.437391 : ℝ) ≤ 90) ∧
      ((-180 : ℝ) ≤ 78.374825 ∧ (78.374825 : ℝ) ≤ 180) ∧
      0 ≤ haversine 17.437391 78.374825 (-45) (-120) :=
  ⟨⟨by norm_num, by norm_num⟩, ⟨by norm_num, by norm_num⟩,
    claim_C6 17.437391 78.374825 (-45) (-120)
      ⟨by norm_num, by norm_num⟩ ⟨by norm_num, by norm_num⟩
      ⟨by norm_num, by norm_num⟩ ⟨by norm_num, by norm_num⟩⟩

/-- C9: for every pair of real-valued inputs the intermediate value a of
the haversine computation lies in [0, 1], so both square roots receive
non-negative arguments and the computation is total, and the resulting
distance is at most pi times the Earth radius. -/
theorem claim_C9 (lat1 lon1 lat2 lon2 : ℝ) :
    0 ≤ hav_a lat1 lon1 lat2 lon2 ∧ hav_a lat1 lon1 lat2 lon2 ≤ 1 ∧
      0 ≤ 1 - hav_a lat1 lon1 lat2 lon2 ∧
      haversine lat1 lon1 lat2 lon2 ≤ π * 6371000 := by
  refine ⟨hav_a_nonneg lat1 lon1 lat2 lon2, hav_a_le_one lat1 lon1 lat2 lon2,
    by linarith [hav_a_le_one lat1 lon1 lat2 lon2], ?_⟩
  unfold haversine
  have h := atan2_le_half_pi (Real.sqrt_nonneg (hav_a lat1 lon1 lat2 lon2))
    (Real.sqrt_nonneg (1 - hav_a lat1 lon1 lat2 lon2))
  linarith

/-- A point due north of a reference point by dlat degrees is at haversine
distance 2 * R * (radians dlat / 2), for small non-negative dlat. -/
lemma haversine_north (lat dlat lon : ℝ) (h0 : 0 ≤ radians dlat / 2)
    (h1 : radians dlat / 2 < π / 2) :
    haversine (lat + dlat) lon lat lon = 2 * 6371000 * (radians dlat / 2) := by
  have ha : hav_a (lat + dlat) lon lat lon = Real.sin (radians dlat / 2) ^ 2 := by
    unfold hav_a
    rw [show radians (lat - (lat + dlat)) / 2 = -(radians dlat / 2) by unfold radians; ring,
      Real.sin_neg, neg_sq, sub_self, show radians 0 / 2 = 0 by unfold radians; ring]
    simp
  have hsin : 0 ≤ Real.sin (radians dlat / 2) :=
    Real.sin_nonneg_of_nonneg_of_le_pi h0 (by linarith [Real.pi_pos])
  have hcos : 0 < Real.cos (radians dlat / 2) :=
    Real.cos_pos_of_mem_Ioo ⟨by linarith [Real.pi_pos], h1⟩
  unfold haversine
  rw [ha, Real.sqrt_sq hsin,
    show (1 : ℝ) - Real.sin (radians dlat / 2) ^ 2 = Real.cos (radians dlat / 2) ^ 2 by
      rw [Real.cos_sq'],
    Real.sqrt_sq hcos.le]
  unfold atan2
  rw [if_pos hcos, ← Real.tan_eq_sin_div_cos, Real.arctan_tan (by linarith) h1]

/-- C8: for the fixture office (17.436923, 78.373906), a point 0.002
degrees north is at haversine distance between 222 and 223 meters, hence
strictly more than the fixture radius of 150 meters, so the spec's
decision rule distance > radius yields allowed = true. -/
theorem claim_C8 :
    150 < haversine 17.438923 78.373906 17.436923 78.373906 ∧
      222 < haversine 17.438923 78.373906 17.436923 78.373906 ∧
      haversine 17.438923 78.373906 17.436923 78.373906 < 223 := by
  have h : (17.438923 : ℝ) = 17.436923 + 0.002 := by norm_num
  rw [h, haversine_north 17.436923 0.002 78.373906
    (by unfold radians; nlinarith [Real.pi_pos])
    (by unfold radians; nlinarith [Real.pi_pos])]
  unfold radians
  refine ⟨?_, ?_, ?_⟩ <;> nlinarith [Real.pi_gt_d2, Real.pi_lt_d2]

end GpsAttendance
